import Mathlib

/-!
Verification of the G3X pedal control core: the numeric codec
(`decode_14bit` / `encode_14bit`), the patch layout decoder
(`parse_patch_data`), the mutation command encoders
(`set_effect_enabled`, `set_effect_type`, `set_knob_value`), the
response classifier (`analyze_response`) and the discovery scanner
(`scan_commands`), embedded shallowly from the Python sources
`g3x_midi.py` and `scan_commands.py`.

Bytes are modelled as `Nat`; Python lists of bytes as `List Nat`;
fallible operations return `Except`; the diagnostic messages the code
prints on a failed check are modelled by the distinct error
constructors, and the free-form note strings of the classifier by the
tagged `Note` type carrying the same data in the same order.
-/

namespace G3X

/-- The SysEx prefix `[0x52, 0x00, 0x59]`: manufacturer ID + device. -/
def SYSEX_PREFIX : List Nat := [0x52, 0x00, 0x59]

/-- Command byte for modify-effect. -/
def CMD_MODIFY_EFFECT : Nat := 0x31

/-- Sub-command: effect on/off. -/
def SUBCMD_ON_OFF : Nat := 0x00

/-- Sub-command: effect type change. -/
def SUBCMD_EFFECT_TYPE : Nat := 0x01

/-- Size of one effect slot window in the patch payload. -/
def EFFECT_SLOT_SIZE : Nat := 14

/-- Number of effect slots in a patch. -/
def NUM_EFFECT_SLOTS : Nat := 6

/-- Offset of the patch name in the payload. -/
def PATCH_NAME_OFFSET : Nat := 96

/-- Length of the patch name field. -/
def PATCH_NAME_LENGTH : Nat := 11

/-- Function `decode_14bit(low, high)` from `g3x_midi.py`:
`(low & 0x7F) | ((high & 0x7F) << 7)`. -/
def decode_14bit (low high : Nat) : Nat :=
  (low &&& 0x7F) ||| ((high &&& 0x7F) <<< 7)

/-- One effect slot of a patch (class `EffectSlot` in `g3x_midi.py`).
Field defaults mirror the dataclass defaults. -/
structure EffectSlot where
  slot_num : Nat
  effect_id : Nat := 0
  enabled : Bool := false
  knob_values : List Nat := [0, 0, 0, 0]
  raw_bytes : List Nat := []
deriving Repr, DecidableEq

/-- A decoded patch (class `PatchData` in `g3x_midi.py`).  The patch
name is kept as the list of its byte values (rendering bytes to
characters is display-only in the source). -/
structure PatchData where
  raw_data : List Nat
  patch_name : List Nat := []
  effect_slots : List EffectSlot := []
  metadata : List Nat := []
deriving Repr, DecidableEq

/-- The three validation failures of `parse_patch_data`, one per
diagnostic printed by the source before it returns `None`. -/
inductive DecodeError where
  | tooShort (got : Nat)
  | invalidHeader (got : List Nat)
  | unexpectedCommand (got : Nat)
deriving Repr, DecidableEq

/-- Name extraction loop body: `for b in name_bytes: if b == 0: break;
if 32 <= b < 127: name_chars.append(chr(b))`. -/
def takeName : List Nat → List Nat
  | [] => []
  | b :: rest =>
    if b = 0 then []
    else if 32 ≤ b ∧ b < 127 then b :: takeName rest
    else takeName rest

/-- Python `str.strip()` on the collected printable characters: of the
whitespace bytes only `0x20` can occur in range [32,126]. -/
def stripSpaces (l : List Nat) : List Nat :=
  (((l.dropWhile (· == 32)).reverse).dropWhile (· == 32)).reverse

/-- Knob-2 absolute offsets, one per slot (from reverse engineering). -/
def knob2_positions : List Nat := [8, 22, 35, 50, 64, 78]

/-- Per-slot parsing: the body of the `for slot_num in
range(NUM_EFFECT_SLOTS)` loop of `parse_patch_data`. -/
def parseSlot (data : List Nat) (slot_num : Nat) : EffectSlot :=
  let slot_start := 5 + slot_num * EFFECT_SLOT_SIZE
  let slot_end := slot_start + EFFECT_SLOT_SIZE
  let slot0 : EffectSlot := { slot_num := slot_num }
  let slot1 :=
    if slot_end ≤ data.length then
      let s0 := { slot0 with raw_bytes := (data.drop slot_start).take EFFECT_SLOT_SIZE }
      let s1 :=
        if slot_start + 2 ≤ data.length then
          { s0 with effect_id := data.getD slot_start 0 &&& 0x7F }
        else s0
      if slot_start + 1 ≤ data.length then
        { s1 with enabled := (data.getD (slot_start + 1) 0 &&& 0x01) != 0 }
      else s1
    else slot0
  let k2_pos := knob2_positions.getD slot_num 0
  if k2_pos + 1 < data.length then
    if slot_num = 1 ∨ slot_num = 2 then
      { slot1 with knob_values :=
          slot1.knob_values.set 1 (decode_14bit (data.getD k2_pos 0) (data.getD (k2_pos + 1) 0)) }
    else
      { slot1 with knob_values := slot1.knob_values.set 1 (data.getD k2_pos 0) }
  else slot1

/-- Function `parse_patch_data(data)` from `g3x_midi.py`: validation (length,
prefix, response tag, first failure wins), then metadata, name and the
six slots. -/
def parse_patch_data (data : List Nat) : Except DecodeError PatchData :=
  if data.length < 100 then
    .error (.tooShort data.length)
  else if data.take 3 ≠ SYSEX_PREFIX then
    .error (.invalidHeader (data.take 3))
  else if data.getD 3 0 ≠ 0x28 then
    .error (.unexpectedCommand (data.getD 3 0))
  else
    let patch0 : PatchData := { raw_data := data }
    let patch1 := { patch0 with metadata := (data.drop 4).take 4 }
    let patch2 :=
      if PATCH_NAME_OFFSET + PATCH_NAME_LENGTH < data.length then
        { patch1 with patch_name :=
            stripSpaces (takeName ((data.drop PATCH_NAME_OFFSET).take PATCH_NAME_LENGTH)) }
      else patch1
    .ok { patch2 with effect_slots := (List.range NUM_EFFECT_SLOTS).map (parseSlot data) }

/-- Caller-supplied out-of-domain argument (§7 taxonomy): the code
reports it and performs no send. -/
inductive RangeError where
  | invalidSlot (got : Int)
  | valueOutOfRange (got : Int)
deriving Repr, DecidableEq

/-- Modelled from the spec: `encode_14bit` is named by the spec's
Numeric Codec (§4.1) but no source file under `src/` defines it.
Faithful to the spec's words: fails with `RangeError` if `v` not in
0–16383; returns `(low = v & 0x7F, high = (v >> 7) & 0x7F)`. -/
def encode_14bit (v : Int) : Except RangeError (Nat × Nat) :=
  if v < 0 ∨ 16383 < v then .error (.valueOutOfRange v)
  else .ok (v.toNat &&& 0x7F, (v.toNat >>> 7) &&& 0x7F)

/-- Method `set_effect_enabled(slot, enabled)`: the payload handed to
`_send_sysex`, or the range failure reported before any send. -/
def set_effect_enabled (slot : Int) (enabled : Bool) : Except RangeError (List Nat) :=
  if slot < 0 ∨ 5 < slot then .error (.invalidSlot slot)
  else
    let value : Nat := if enabled then 0x01 else 0x00
    .ok [ CMD_MODIFY_EFFECT, slot.toNat, SUBCMD_ON_OFF, value, 0x00]

/-- Method `set_effect_type(slot, effect_id)`: payload
`[0x31, slot, 0x01, effect_id, 0x00]`; `effect_id` unvalidated. -/
def set_effect_type (slot : Int) (effect_id : Nat) : Except RangeError (List Nat) :=
  if slot < 0 ∨ 5 < slot then .error (.invalidSlot slot)
  else .ok [ CMD_MODIFY_EFFECT, slot.toNat, SUBCMD_EFFECT_TYPE, effect_id, 0x00]

/-- Method `set_knob_value(slot, knob, value)`: payload
`[0x31, slot, 0x00, knob + 1, value, 0x00]`; knob and value
unvalidated. -/
def set_knob_value (slot : Int) (knob value : Nat) : Except RangeError (List Nat) :=
  if slot < 0 ∨ 5 < slot then .error (.invalidSlot slot)
  else
    let knob_cmd := knob + 0x01
    .ok [ CMD_MODIFY_EFFECT, slot.toNat, 0x00, knob_cmd, value, 0x00]

/-- A classifier note (`analyze_response` in `scan_commands.py`).
Each constructor carries the data of the corresponding formatted
string the source appends to `notes`, in the same order. -/
inductive Note where
  | respCmdReqMinus1 (resp_cmd : Nat)
  | respCmdEcho (resp_cmd : Nat)
  | respCmdOther (resp_cmd : Nat)
  | possibleFlags (offset : Nat) (window : List Nat)
  | asciiFragments (runs : List (List Nat))
deriving Repr, DecidableEq

/-- True exactly on the ASCII-run note. -/
def Note.isAscii : Note → Bool
  | .asciiFragments _ => true
  | _ => false

/-- Response command byte heuristic: `response[3]` compared with the
request command (`resp_cmd == cmd - 1` over Python ints equals
`resp_cmd + 1 = cmd` over naturals). -/
def respCmdNotes (cmd : Nat) (response : List Nat) : List Note :=
  if 3 < response.length then
    let resp_cmd := response.getD 3 0
    if resp_cmd + 1 = cmd then [.respCmdReqMinus1 resp_cmd]
    else if resp_cmd = cmd then [.respCmdEcho resp_cmd]
    else [.respCmdOther resp_cmd]
  else []

/-- Flag-run heuristic: every window `response[i:i+6]` with
`i in range(len(response) - 5)` whose bytes all lie in {0, 1}. -/
def flagNotes (response : List Nat) : List Note :=
  (List.range (response.length - 5)).filterMap fun i =>
    let window := (response.drop i).take 6
    if window.all (fun b => b == 0 || b == 1) then
      some (.possibleFlags i window)
    else none

/-- Python `enumerate(response)` filtered to the printable range [32,126]. -/
def ascii_chars (response : List Nat) : List (Nat × Nat) :=
  response.enum.filter fun p => decide (32 ≤ p.2 ∧ p.2 < 127)

/-- One step of the run-merging loop over `ascii_chars`: state is
`(runs, current_run, last_i)` with `last_i` initialised to `-2`. -/
def mergeStep (st : List (List Nat) × List Nat × Int) (p : Nat × Nat) :
    List (List Nat) × List Nat × Int :=
  let (runs, current_run, last_i) := st
  if (p.1 : Int) = last_i + 1 then
    (runs, current_run ++ [p.2], (p.1 : Int))
  else
    let runs1 := if 4 ≤ current_run.length then runs ++ [current_run] else runs
    (runs1, [p.2], (p.1 : Int))

/-- The ASCII runs the classifier reports: only computed when at least
4 printable bytes exist; maximal consecutive-offset runs of length ≥ 4. -/
def asciiRunsOf (response : List Nat) : List (List Nat) :=
  let chars := ascii_chars response
  if 4 ≤ chars.length then
    let st := chars.foldl mergeStep ([], [], -2)
    if 4 ≤ st.2.1.length then st.1 ++ [st.2.1] else st.1
  else []

/-- The ASCII note: appended once, only when `runs` is non-empty. -/
def asciiNotes (response : List Nat) : List Note :=
  let runs := asciiRunsOf response
  if runs.isEmpty then [] else [.asciiFragments runs]

/-- Function `analyze_response(cmd, response)` from `scan_commands.py`: empty
response yields no notes; otherwise the response-command note, the
flag-window notes and the ASCII note, in source order. -/
def analyze_response (cmd : Nat) (response : List Nat) : List Note :=
  if response.isEmpty then []
  else respCmdNotes cmd response ++ flagNotes response ++ asciiNotes response

/-- One record of the discovery report (the dict built per command in
`scan_commands`). -/
structure ScanResult where
  cmd : Nat
  tx : List Nat
  responses : List (List Nat)
deriving Repr, DecidableEq

/-- Function `scan_commands(output_port, input_port, log_file, start, end)`:
the loop `for cmd in range(start, end + 1)` probing each command with
the single-byte payload `[cmd]`.  The transport exchange `send_sysex`
is abstracted as the function `device` from the probed command to the
drained response frames; the log-file writes are display-only. -/
def scan_commands (device : Nat → List (List Nat)) (start stop : Nat) : List ScanResult :=
  (List.range' start (stop + 1 - start)).map fun cmd =>
    { cmd := cmd, tx := SYSEX_PREFIX ++ [cmd], responses := device cmd }

/-- The summary subset computed in `main`:
`responding = [r for r in results if r['responses']]`. -/
def responding (results : List ScanResult) : List ScanResult :=
  results.filter fun r => !r.responses.isEmpty

/-! ## Theorems -/

/-- Round-trip core: decoding the masked low/high split of `n ≤ 16383`
returns `n`. -/
theorem decode_split_roundtrip (n : Nat) (h : n ≤ 16383) :
    decode_14bit (n &&& 0x7F) ((n >>> 7) &&& 0x7F) = n := by
  have hand : ∀ x : Nat, x &&& 0x7F = x % 128 := fun x =>
    Nat.and_pow_two_sub_one_eq_mod x 7
  have hdiv : n / 128 < 128 := by omega
  have hmod : n % 128 < 128 := Nat.mod_lt _ (by norm_num)
  unfold decode_14bit
  rw [hand, hand, hand, hand, Nat.shiftRight_eq_div_pow]
  norm_num
  rw [Nat.mod_eq_of_lt hdiv, Nat.shiftLeft_eq, Nat.or_comm, Nat.mul_comm,
    ← Nat.mul_add_lt_is_or hmod (n / 128)]
  have h128 : (2 : Nat) ^ 7 = 128 := by norm_num
  rw [h128]
  omega

/-- C3: for all byte inputs, `decode_14bit(low, high)` equals
`(low & 0x7F) | ((high & 0x7F) << 7)`, never fails (it is total), and
its result lies in 0..16383. -/
theorem decode_14bit_spec (low high : Nat) (_hl : low ≤ 255) (_hh : high ≤ 255) :
    decode_14bit low high = (low &&& 0x7F) ||| ((high &&& 0x7F) <<< 7) ∧
    decode_14bit low high ≤ 16383 := by
  refine ⟨rfl, ?_⟩
  have h1 : low &&& 0x7F < 2 ^ 14 :=
    lt_of_le_of_lt Nat.and_le_right (by norm_num)
  have h2 : (high &&& 0x7F) <<< 7 < 2 ^ 14 := by
    rw [Nat.shiftLeft_eq]
    have hm : high &&& 0x7F ≤ 127 := Nat.and_le_right
    calc (high &&& 0x7F) * 2 ^ 7 ≤ 127 * 2 ^ 7 := Nat.mul_le_mul_right _ hm
    _ < 2 ^ 14 := by norm_num
  have := Nat.or_lt_two_pow h1 h2
  unfold decode_14bit
  omega

/-- Witness for C3 at `(low, high) = (200, 255)`. -/
theorem decode_14bit_spec_witness :
    decode_14bit 200 255 = (200 &&& 0x7F) ||| ((255 &&& 0x7F) <<< 7) ∧
    decode_14bit 200 255 ≤ 16383 :=
  decode_14bit_spec 200 255 (by norm_num) (by norm_num)

/-- C4: `encode_14bit` fails with `RangeError` outside 0..16383, and on
0..16383 returns `(v & 0x7F, (v >> 7) & 0x7F)`, which `decode_14bit`
maps back to `v`. -/
theorem encode_14bit_spec (v : Int) :
    ((v < 0 ∨ 16383 < v) → encode_14bit v = .error (.valueOutOfRange v)) ∧
    (0 ≤ v → v ≤ 16383 →
      encode_14bit v = .ok (v.toNat &&& 0x7F, (v.toNat >>> 7) &&& 0x7F) ∧
      decode_14bit (v.toNat &&& 0x7F) ((v.toNat >>> 7) &&& 0x7F) = v.toNat) := by
  constructor
  · intro h
    unfold encode_14bit
    rw [if_pos h]
  · intro h0 h1
    constructor
    · unfold encode_14bit
      rw [if_neg (by omega)]
    · exact decode_split_roundtrip v.toNat (by omega)

/-- Witness for C4 at `v = 16500` (rejected) and `v = 300`
(round-trips through `(44, 2)`). -/
theorem encode_14bit_spec_witness :
    encode_14bit 16500 = .error (.valueOutOfRange 16500) ∧
    encode_14bit 300 = .ok (44, 2) ∧ decode_14bit 44 2 = 300 :=
  ⟨(encode_14bit_spec 16500).1 (Or.inr (by norm_num)),
   ((encode_14bit_spec 300).2 (by norm_num) (by norm_num)).1,
   ((encode_14bit_spec 300).2 (by norm_num) (by norm_num)).2⟩

/-- C6: every mutation encoder rejects a slot outside 0..5 with
`RangeError`, producing an error value instead of a payload, so no
bytes ever reach the transport. -/
theorem mutation_slot_range (slot : Int) (h : slot < 0 ∨ 5 < slot) :
    (∀ enabled, set_effect_enabled slot enabled = .error (.invalidSlot slot)) ∧
    (∀ effect_id, set_effect_type slot effect_id = .error (.invalidSlot slot)) ∧
    (∀ knob value, set_knob_value slot knob value = .error (.invalidSlot slot)) := by
  refine ⟨fun enabled => ?_, fun effect_id => ?_, fun knob value => ?_⟩ <;>
    · simp only [ set_effect_enabled, set_effect_type, set_knob_value]
      rw [if_pos h]

/-- Witness for C6 at `slot = 6` and `slot = -1`. -/
theorem mutation_slot_range_witness :
    set_effect_enabled 6 true = .error (.invalidSlot 6) ∧
    set_effect_type 6 0x02 = .error (.invalidSlot 6) ∧
    set_knob_value (-1) 2 40 = .error (.invalidSlot (-1)) :=
  ⟨(mutation_slot_range 6 (Or.inr (by norm_num))).1 true,
   (mutation_slot_range 6 (Or.inr (by norm_num))).2.1 0x02,
   (mutation_slot_range (-1) (Or.inl (by norm_num))).2.2 2 40⟩

/-- C7: for slots 0..5 the encoders produce exactly the payloads
`[0x31, slot, 0x00, 1|0, 0]`, `[0x31, slot, 0x01, effect_id, 0]` and
`[0x31, slot, 0x00, knob + 1, value, 0]`, with `effect_id` and `value`
unvalidated. -/
theorem mutation_payloads (slot : Int) (h0 : 0 ≤ slot) (h5 : slot ≤ 5) :
    set_effect_enabled slot true = .ok [0x31, slot.toNat, 0x00, 1, 0] ∧
    set_effect_enabled slot false = .ok [0x31, slot.toNat, 0x00, 0, 0] ∧
    (∀ effect_id, set_effect_type slot effect_id =
      .ok [0x31, slot.toNat, 0x01, effect_id, 0]) ∧
    (∀ knob value, set_knob_value slot knob value =
      .ok [0x31, slot.toNat, 0x00, knob + 1, value, 0]) := by
  refine ⟨?_, ?_, fun effect_id => ?_, fun knob value => ?_⟩ <;>
    · simp only [ set_effect_enabled, set_effect_type, set_knob_value]
      rw [if_neg (by omega)]
      rfl

/-- Witness for C7 at `slot = 3` (and the spec's `set_effect_type(2, 2)`
example). -/
theorem mutation_payloads_witness :
    set_effect_enabled 3 true = .ok [0x31, 3, 0x00, 1, 0] ∧
    set_effect_enabled 3 false = .ok [0x31, 3, 0x00, 0, 0] ∧
    set_effect_type 2 0x02 = .ok [0x31, 2, 0x01, 0x02, 0] ∧
    set_knob_value 3 2 40 = .ok [0x31, 3, 0x00, 3, 40, 0] :=
  ⟨(mutation_payloads 3 (by norm_num) (by norm_num)).1,
   (mutation_payloads 3 (by norm_num) (by norm_num)).2.1,
   (mutation_payloads 2 (by norm_num) (by norm_num)).2.2.1 0x02,
   (mutation_payloads 3 (by norm_num) (by norm_num)).2.2.2 2 40⟩

/-- C1: `parse_patch_data` validates length ≥ 100, then the 3-byte
prefix, then the response tag 0x28, in that order with the first
failure winning; each failure is a distinct decode error and an error
result carries no snapshot; errors arise only from these checks. -/
theorem parse_patch_data_validation (data : List Nat) :
    (data.length < 100 → parse_patch_data data = .error (.tooShort data.length)) ∧
    (100 ≤ data.length → data.take 3 ≠ SYSEX_PREFIX →
      parse_patch_data data = .error (.invalidHeader (data.take 3))) ∧
    (100 ≤ data.length → data.take 3 = SYSEX_PREFIX → data.getD 3 0 ≠ 0x28 →
      parse_patch_data data = .error (.unexpectedCommand (data.getD 3 0))) ∧
    (∀ e, parse_patch_data data = .error e →
      data.length < 100 ∨ data.take 3 ≠ SYSEX_PREFIX ∨ data.getD 3 0 ≠ 0x28) := by
  refine ⟨?_, ?_, ?_, ?_⟩
  · intro h
    unfold parse_patch_data
    rw [if_pos h]
  · intro hlen hpre
    unfold parse_patch_data
    rw [if_neg (by omega), if_pos hpre]
  · intro hlen hpre hcmd
    unfold parse_patch_data
    rw [if_neg (by omega), if_neg (not_not_intro hpre), if_pos hcmd]
  · intro e he
    by_contra hcon
    push_neg at hcon
    obtain ⟨h1, h2, h3⟩ := hcon
    unfold parse_patch_data at he
    rw [if_neg (by omega), if_neg (not_not_intro h2), if_neg (not_not_intro h3)] at he
    exact absurd he (by simp)

/-- Witness for C1: each of the three checks failing on its own
concrete frame. -/
theorem parse_patch_data_validation_witness :
    parse_patch_data [] = .error (.tooShort 0) ∧
    parse_patch_data (List.replicate 100 0) = .error (.invalidHeader [0, 0, 0]) ∧
    parse_patch_data ([0x52, 0, 0x59, 0x29] ++ List.replicate 96 0) =
      .error (.unexpectedCommand 0x29) :=
  ⟨(parse_patch_data_validation []).1 (by decide),
   (parse_patch_data_validation (List.replicate 100 0)).2.1 (by simp) (by decide),
   (parse_patch_data_validation ([0x52, 0, 0x59, 0x29] ++ List.replicate 96 0)).2.2.1
     (by simp) (by rfl) (by decide)⟩

/-- The slot number of a parsed slot is the loop index. -/
theorem parseSlot_slot_num (data : List Nat) (n : Nat) :
    (parseSlot data n).slot_num = n := by
  unfold parseSlot
  dsimp only
  split_ifs <;> rfl

/-- For a frame of length ≥ 100 every slot window and every knob-2
offset is in range, so `parseSlot` fills every field from the frame. -/
theorem parseSlot_eq (data : List Nat) (hlen : 100 ≤ data.length)
    (i : Nat) (hi : i < 6) :
    parseSlot data i =
      { slot_num := i,
        effect_id := data.getD (5 + i * 14) 0 &&& 0x7F,
        enabled := (data.getD (5 + i * 14 + 1) 0 &&& 0x01) != 0,
        knob_values := [0, 0, 0, 0].set 1
          (if i = 1 ∨ i = 2 then
            decode_14bit (data.getD (knob2_positions.getD i 0) 0)
              (data.getD (knob2_positions.getD i 0 + 1) 0)
          else data.getD (knob2_positions.getD i 0) 0),
        raw_bytes := (data.drop (5 + i * 14)).take 14 } := by
  interval_cases i <;>
    simp [parseSlot, knob2_positions, EFFECT_SLOT_SIZE,
      show 19 ≤ data.length from by omega,
      show 33 ≤ data.length from by omega,
      show 47 ≤ data.length from by omega,
      show 61 ≤ data.length from by omega,
      show 75 ≤ data.length from by omega,
      show 89 ≤ data.length from by omega,
      show 7 ≤ data.length from by omega,
      show 21 ≤ data.length from by omega,
      show 35 ≤ data.length from by omega,
      show 49 ≤ data.length from by omega,
      show 63 ≤ data.length from by omega,
      show 77 ≤ data.length from by omega,
      show 6 ≤ data.length from by omega,
      show 20 ≤ data.length from by omega,
      show 34 ≤ data.length from by omega,
      show 48 ≤ data.length from by omega,
      show 62 ≤ data.length from by omega,
      show 76 ≤ data.length from by omega,
      show 9 < data.length from by omega,
      show 23 < data.length from by omega,
      show 36 < data.length from by omega,
      show 51 < data.length from by omega,
      show 65 < data.length from by omega,
      show 79 < data.length from by omega]

/-- On a frame passing all three checks, `parse_patch_data` succeeds
with the snapshot assembled from the frame. -/
theorem parse_patch_data_ok (data : List Nat) (hlen : 100 ≤ data.length)
    (hpre : data.take 3 = SYSEX_PREFIX) (hcmd : data.getD 3 0 = 0x28) :
    parse_patch_data data = .ok
      { raw_data := data,
        patch_name :=
          if PATCH_NAME_OFFSET + PATCH_NAME_LENGTH < data.length then
            stripSpaces (takeName ((data.drop PATCH_NAME_OFFSET).take PATCH_NAME_LENGTH))
          else [],
        effect_slots := (List.range NUM_EFFECT_SLOTS).map (parseSlot data),
        metadata := (data.drop 4).take 4 } := by
  unfold parse_patch_data
  rw [if_neg (by omega), if_neg (not_not_intro hpre), if_neg (not_not_intro hcmd)]
  split <;> rfl

/-- C2: a valid frame (length ≥ 100, matching prefix, tag 0x28) always
decodes to a snapshot with exactly 6 slots whose `slot_num` equals its
position, regardless of the rest of the payload. -/
theorem parse_patch_data_six_slots (data : List Nat) (hlen : 100 ≤ data.length)
    (hpre : data.take 3 = SYSEX_PREFIX) (hcmd : data.getD 3 0 = 0x28) :
    ∃ patch, parse_patch_data data = .ok patch ∧
      patch.effect_slots.length = 6 ∧
      ∀ i (hi : i < patch.effect_slots.length),
        (patch.effect_slots.get ⟨i, hi⟩).slot_num = i := by
  refine ⟨_, parse_patch_data_ok data hlen hpre hcmd, by simp [NUM_EFFECT_SLOTS], ?_⟩
  intro i hi
  simp only [List.get_eq_getElem, List.getElem_map, List.getElem_range]
  exact parseSlot_slot_num data i

/-- Witness for C2 on a concrete valid 100-byte frame. -/
theorem parse_patch_data_six_slots_witness :
    ∃ patch, parse_patch_data ([0x52, 0, 0x59, 0x28] ++ List.replicate 96 7) = .ok patch ∧
      patch.effect_slots.length = 6 ∧
      ∀ i (hi : i < patch.effect_slots.length),
        (patch.effect_slots.get ⟨i, hi⟩).slot_num = i :=
  parse_patch_data_six_slots ([0x52, 0, 0x59, 0x28] ++ List.replicate 96 7)
    (by simp) (by rfl) (by rfl)

/-- C5: on a validated frame each slot's second knob value comes from
the fixed absolute offset table `[8, 22, 35, 50, 64, 78]`: slots 1 and
2 decode 14-bit from the two bytes there, the others read the single
byte there. -/
theorem parse_patch_data_knob2 (data : List Nat) (hlen : 100 ≤ data.length)
    (hpre : data.take 3 = SYSEX_PREFIX) (hcmd : data.getD 3 0 = 0x28) :
    knob2_positions = [8, 22, 35, 50, 64, 78] ∧
    ∃ patch, parse_patch_data data = .ok patch ∧
      ∀ i (hi : i < patch.effect_slots.length),
        (patch.effect_slots.get ⟨i, hi⟩).knob_values.getD 1 0 =
          if i = 1 ∨ i = 2 then
            decode_14bit (data.getD (knob2_positions.getD i 0) 0)
              (data.getD (knob2_positions.getD i 0 + 1) 0)
          else data.getD (knob2_positions.getD i 0) 0 := by
  refine ⟨rfl, _, parse_patch_data_ok data hlen hpre hcmd, ?_⟩
  intro i hi
  have hi6 : i < 6 := by
    simpa [NUM_EFFECT_SLOTS] using hi
  simp only [List.get_eq_getElem, List.getElem_map, List.getElem_range]
  rw [parseSlot_eq data hlen i hi6]
  simp

/-- Witness for C5 on a concrete valid 100-byte frame. -/
theorem parse_patch_data_knob2_witness :
    knob2_positions = [8, 22, 35, 50, 64, 78] ∧
    ∃ patch, parse_patch_data ([0x52, 0, 0x59, 0x28] ++ List.replicate 96 3) = .ok patch ∧
      ∀ i (hi : i < patch.effect_slots.length),
        (patch.effect_slots.get ⟨i, hi⟩).knob_values.getD 1 0 =
          if i = 1 ∨ i = 2 then
            decode_14bit
              (([0x52, 0, 0x59, 0x28] ++ List.replicate 96 3).getD (knob2_positions.getD i 0) 0)
              (([0x52, 0, 0x59, 0x28] ++ List.replicate 96 3).getD (knob2_positions.getD i 0 + 1) 0)
          else ([0x52, 0, 0x59, 0x28] ++ List.replicate 96 3).getD (knob2_positions.getD i 0) 0 :=
  parse_patch_data_knob2 ([0x52, 0, 0x59, 0x28] ++ List.replicate 96 3)
    (by simp) (by rfl) (by rfl)

/-- C10: on a validated frame the degraded slot branch is dead code:
every slot window `[5 + 14i, 5 + 14i + 14)` and every knob-2 offset
read lies within the frame, so each slot carries its full 14-byte
window and the fields read from it. -/
theorem parse_patch_data_windows_in_bounds (data : List Nat) (hlen : 100 ≤ data.length)
    (hpre : data.take 3 = SYSEX_PREFIX) (hcmd : data.getD 3 0 = 0x28) :
    ∃ patch, parse_patch_data data = .ok patch ∧
      ∀ i (hi : i < patch.effect_slots.length),
        5 + i * EFFECT_SLOT_SIZE + EFFECT_SLOT_SIZE ≤ data.length ∧
        knob2_positions.getD i 0 + 1 < data.length ∧
        (patch.effect_slots.get ⟨i, hi⟩).raw_bytes =
          (data.drop (5 + i * EFFECT_SLOT_SIZE)).take EFFECT_SLOT_SIZE ∧
        (patch.effect_slots.get ⟨i, hi⟩).raw_bytes.length = 14 ∧
        (patch.effect_slots.get ⟨i, hi⟩).effect_id =
          data.getD (5 + i * EFFECT_SLOT_SIZE) 0 &&& 0x7F ∧
        (patch.effect_slots.get ⟨i, hi⟩).enabled =
          ((data.getD (5 + i * EFFECT_SLOT_SIZE + 1) 0 &&& 0x01) != 0) ∧
        (patch.effect_slots.get ⟨i, hi⟩).knob_values.length = 4 := by
  refine ⟨_, parse_patch_data_ok data hlen hpre hcmd, ?_⟩
  intro i hi
  have hi6 : i < 6 := by
    simpa [NUM_EFFECT_SLOTS] using hi
  have hk2 : knob2_positions.getD i 0 + 1 < data.length := by
    interval_cases i <;> simp [knob2_positions] <;> omega
  simp only [List.get_eq_getElem, List.getElem_map, List.getElem_range]
  rw [parseSlot_eq data hlen i hi6]
  refine ⟨by simp [EFFECT_SLOT_SIZE]; omega, hk2, by simp [EFFECT_SLOT_SIZE], ?_, by simp [EFFECT_SLOT_SIZE], by simp [EFFECT_SLOT_SIZE], by simp⟩
  simp [EFFECT_SLOT_SIZE]
  omega

/-- Witness for C10 on a concrete valid 100-byte frame. -/
theorem parse_patch_data_windows_in_bounds_witness :
    ∃ patch, parse_patch_data ([0x52, 0, 0x59, 0x28] ++ List.replicate 96 5) = .ok patch ∧
      ∀ i (hi : i < patch.effect_slots.length),
        5 + i * EFFECT_SLOT_SIZE + EFFECT_SLOT_SIZE ≤
          ([0x52, 0, 0x59, 0x28] ++ List.replicate 96 5).length ∧
        knob2_positions.getD i 0 + 1 < ([0x52, 0, 0x59, 0x28] ++ List.replicate 96 5).length ∧
        (patch.effect_slots.get ⟨i, hi⟩).raw_bytes =
          (([0x52, 0, 0x59, 0x28] ++ List.replicate 96 5).drop
            (5 + i * EFFECT_SLOT_SIZE)).take EFFECT_SLOT_SIZE ∧
        (patch.effect_slots.get ⟨i, hi⟩).raw_bytes.length = 14 ∧
        (patch.effect_slots.get ⟨i, hi⟩).effect_id =
          ([0x52, 0, 0x59, 0x28] ++ List.replicate 96 5).getD (5 + i * EFFECT_SLOT_SIZE) 0 &&& 0x7F ∧
        (patch.effect_slots.get ⟨i, hi⟩).enabled =
          ((([0x52, 0, 0x59, 0x28] ++ List.replicate 96 5).getD
            (5 + i * EFFECT_SLOT_SIZE + 1) 0 &&& 0x01) != 0) ∧
        (patch.effect_slots.get ⟨i, hi⟩).knob_values.length = 4 :=
  parse_patch_data_windows_in_bounds ([0x52, 0, 0x59, 0x28] ++ List.replicate 96 5)
    (by simp) (by rfl) (by rfl)

/-- The response-command heuristic never emits an ASCII note. -/
theorem respCmdNotes_no_ascii (cmd : Nat) (response : List Nat) :
    (respCmdNotes cmd response).filter Note.isAscii = [] := by
  unfold respCmdNotes
  dsimp only
  split_ifs <;> simp [Note.isAscii]

/-- The flag-window heuristic never emits an ASCII note. -/
theorem flagNotes_no_ascii (response : List Nat) :
    (flagNotes response).filter Note.isAscii = [] := by
  rw [List.filter_eq_nil_iff]
  intro a ha
  unfold flagNotes at ha
  rw [List.mem_filterMap] at ha
  obtain ⟨i, _, hf⟩ := ha
  dsimp only at hf
  split at hf
  · simp only [Option.some.injEq] at hf
    subst hf
    simp [Note.isAscii]
  · exact absurd hf (by simp)

/-- C8: ASCII-run detection keeps only maximal printable runs of
length ≥ 4: on a frame made of a 5-byte printable run, one
non-printable byte, then a 3-byte printable run, the classifier emits
exactly one ASCII note, holding only the 5-byte run. -/
theorem analyze_response_ascii_runs (cmd b0 b1 b2 b3 b4 np c0 c1 c2 : Nat)
    (hb0 : 32 ≤ b0) (hb0u : b0 < 127) (hb1 : 32 ≤ b1) (hb1u : b1 < 127)
    (hb2 : 32 ≤ b2) (hb2u : b2 < 127) (hb3 : 32 ≤ b3) (hb3u : b3 < 127)
    (hb4 : 32 ≤ b4) (hb4u : b4 < 127)
    (hnp : ¬(32 ≤ np ∧ np < 127))
    (hc0 : 32 ≤ c0) (hc0u : c0 < 127) (hc1 : 32 ≤ c1) (hc1u : c1 < 127)
    (hc2 : 32 ≤ c2) (hc2u : c2 < 127) :
    (analyze_response cmd [b0, b1, b2, b3, b4, np, c0, c1, c2]).filter Note.isAscii
      = [.asciiFragments [[b0, b1, b2, b3, b4]]] := by
  have hchars : ascii_chars [b0, b1, b2, b3, b4, np, c0, c1, c2] =
      [(0, b0), (1, b1), (2, b2), (3, b3), (4, b4), (6, c0), (7, c1), (8, c2)] := by
    simp [ascii_chars, List.enum, List.enumFrom, List.filter,
      hb0, hb0u, hb1, hb1u, hb2, hb2u, hb3, hb3u, hb4, hb4u, hnp,
      hc0, hc0u, hc1, hc1u, hc2, hc2u]
  have hruns : asciiRunsOf [b0, b1, b2, b3, b4, np, c0, c1, c2] = [[b0, b1, b2, b3, b4]] := by
    rw [asciiRunsOf, hchars]
    simp [mergeStep]
  rw [analyze_response]
  rw [if_neg (by simp)]
  rw [List.filter_append, List.filter_append,
    respCmdNotes_no_ascii, flagNotes_no_ascii]
  simp [asciiNotes, hruns, Note.isAscii]

/-- Witness for C8: `"HELLO" ++ [0x00] ++ "abc"` yields the single
ASCII note `["HELLO"]`. -/
theorem analyze_response_ascii_runs_witness :
    (analyze_response 0x29 [72, 69, 76, 76, 79, 0, 97, 98, 99]).filter Note.isAscii
      = [.asciiFragments [[72, 69, 76, 76, 79]]] :=
  analyze_response_ascii_runs 0x29 72 69 76 76 79 0 97 98 99
    (by norm_num) (by norm_num) (by norm_num) (by norm_num) (by norm_num)
    (by norm_num) (by norm_num) (by norm_num) (by norm_num) (by norm_num)
    (by norm_num) (by norm_num) (by norm_num) (by norm_num) (by norm_num)
    (by norm_num) (by norm_num)

/-- C9: when every probe yields an empty response set the scanner still
records one entry per command, in range order, each with an empty
response list, and the responding subset is empty. -/
theorem scan_commands_all_silent (device : Nat → List (List Nat)) (start stop : Nat)
    (h : ∀ cmd, device cmd = []) :
    (scan_commands device start stop).length = stop + 1 - start ∧
    (∀ i (hi : i < (scan_commands device start stop).length),
      ((scan_commands device start stop).get ⟨i, hi⟩).cmd = start + i ∧
      ((scan_commands device start stop).get ⟨i, hi⟩).responses = []) ∧
    responding (scan_commands device start stop) = [] := by
  refine ⟨by simp [scan_commands], ?_, ?_⟩
  · intro i hi
    simp only [scan_commands, List.get_eq_getElem, List.getElem_map, List.getElem_range']
    exact ⟨by omega, h _⟩
  · rw [responding, List.filter_eq_nil_iff]
    intro r hr
    simp only [scan_commands, List.mem_map] at hr
    obtain ⟨cmd, _, hcmd⟩ := hr
    subst hcmd
    simp [h]

/-- Witness for C9: scanning 0x00..0x7F against a silent device. -/
theorem scan_commands_all_silent_witness :
    (scan_commands (fun _ => []) 0x00 0x7F).length = 128 ∧
    (∀ i (hi : i < (scan_commands (fun _ => []) 0x00 0x7F).length),
      ((scan_commands (fun _ => []) 0x00 0x7F).get ⟨i, hi⟩).cmd = 0 + i ∧
      ((scan_commands (fun _ => []) 0x00 0x7F).get ⟨i, hi⟩).responses = []) ∧
    responding (scan_commands (fun _ => []) 0x00 0x7F) = [] :=
  scan_commands_all_silent (fun _ => []) 0x00 0x7F (fun _ => rfl)

end G3X
